import Mathlib

/-!
Verification of the QCoDeS parameter value cache with validity/staleness
semantics (`Parameter` + its cache), as described by the repository's
specification and exercised by `src/qcodes/tests/parameter/test_parameter_cache.py`.

Time is modelled as an abstract instant (`Nat`); every operation that reads
the clock receives the current instant `now` explicitly.  Cooked and raw
values are rationals (`Rat`), which supports the scale/offset transform and
its inverse.  The raw getter is modelled by passing the raw value the
instrument would return (`rawIn`) to any operation that may perform I/O.
All fallible operations return `Except Err _`.
-/

namespace QCodes

/-- Modelled from the spec: the error taxonomy of section 7.  A usage error is a
construction-time misconfiguration (Python `SyntaxError`); a missing-capability
error is an attempt to `get` without a getter or `set` without a setter
(Python `AttributeError`); an invalid-state error is raised from `cache.get`
when no valid value can be produced (Python `RuntimeError`); a validation
error is a candidate value failing the declared constraints. -/
inductive Err where
  | usageError (msg : String)
  | missingCapability (msg : String)
  | invalidState (msg : String)
  | validationError (msg : String)
deriving DecidableEq, Repr

/-- Modelled from the spec: the configuration of a `Parameter` (section 3),
immutable after construction except that subclasses may add getter capability
afterwards (the documented escape hatch), which is why `gettable` is a plain
field of the record rather than fixed by a constructor invariant.  `scale`
and `offset` model the optional numeric value transform with the identity
defaults `scale = 1`, `offset = 0`; the discrete value-mapping table is not
needed by any claim and is omitted.  `validator` models the external
validator collaborator (true = value accepted). -/
structure Parameter where
  name : String
  gettable : Bool
  settable : Bool
  max_val_age : Option Nat
  scale : Rat
  offset : Rat
  validator : Rat → Bool

/-- Modelled from the spec: the cache state (section 3): last known cooked
value, last known raw value, and the instant of that knowledge; `none`
denotes the "unknown" / "never set" marker in each field. -/
structure Cache where
  value : Option Rat
  raw_value : Option Rat
  timestamp : Option Nat
deriving DecidableEq, Repr

/-- Modelled from the spec: the mutable state carried by a parameter: its
cache together with the observable get/set call counters used by the tests
(`_get_count` / `_set_count`). -/
structure ParamState where
  cache : Cache
  get_count : Nat
  set_count : Nat
deriving DecidableEq, Repr

/-- Modelled from the spec: the empty initial state of a freshly created
cache: no cooked value, no raw value, timestamp never set, both counters 0. -/
def initState : ParamState :=
  { cache := { value := none, raw_value := none, timestamp := none },
    get_count := 0, set_count := 0 }

/-- Modelled from the spec: the cooked-to-raw direction of the value
transform (section 3): scale then offset applied to produce the final raw
value. -/
def toRaw (p : Parameter) (v : Rat) : Rat :=
  v * p.scale + p.offset

/-- Modelled from the spec: the raw-to-cooked direction of the value
transform, the inverse composition recovering the cooked value from raw. -/
def fromRaw (p : Parameter) (r : Rat) : Rat :=
  (r - p.offset) / p.scale

/-- Modelled from the spec: the missing-capability message of `Parameter.get`
when no getter is configured. -/
def noGetterMsg (name : String) : String :=
  "Parameter " ++ name ++ " does not have a get command"

/-- Modelled from the spec: the missing-capability message of `Parameter.set`
when no setter is configured. -/
def noSetterMsg (name : String) : String :=
  "Parameter " ++ name ++ " does not have a set command"

/-- Modelled from the spec: the invalid-state message of `cache.get` when the
timestamp was never set and the parameter has no getter; it names the
parameter. -/
def unknownValueMsg (name : String) : String :=
  "Value of parameter " ++ name ++
    " is unknown and the Parameter does not have a get command"

/-- Modelled from the spec: the invalid-state message of `cache.get` when
`max_val_age` is configured but the parameter has no getter, discovered
lazily (the escape-hatch case). -/
def maxValAgeMsg : String :=
  "max_val_age is not supported for a parameter without get command"

/-- Modelled from the spec: the usage-error message rejecting the
construction that supplies both an initial cooked value and an initial cache
value; it mentions both options. -/
def bothInitialMsg : String :=
  "It is not allowed to specify both of the initial_value and initial_cache_value keyword arguments"

/-- Modelled from the spec: the usage-error message rejecting `max_val_age`
configured on a parameter known at construction time to have no getter. -/
def maxValAgeNoGetMsg : String :=
  "Must have get method or specify get_parser when max_val_age is set"

/-- Modelled from the spec: `Parameter.get` (section 4.2).  Fails with a
missing-capability error when no getter is configured; otherwise invokes the
raw getter (whose returned raw value is the supplied `rawIn`), applies the
inverse transform, updates the cache atomically with (cooked, raw, now),
increments the get call counter and returns the cooked value. -/
def Parameter.get (p : Parameter) (s : ParamState) (now : Nat) (rawIn : Rat) :
    Except Err (Rat × ParamState) :=
  if p.gettable then
    let v := fromRaw p rawIn
    .ok (v, { cache := { value := some v, raw_value := some rawIn, timestamp := some now },
              get_count := s.get_count + 1, set_count := s.set_count })
  else
    .error (.missingCapability (noGetterMsg p.name))

/-- Modelled from the spec: `Parameter.set` (section 4.2).  Fails with a
missing-capability error when no setter is configured; validates the value
before any I/O, failing fast with a validation error; otherwise applies the
transform, performs the raw write and updates the cache atomically with
(cooked = value, raw, now), incrementing the set call counter. -/
def Parameter.set (p : Parameter) (s : ParamState) (now : Nat) (v : Rat) :
    Except Err ParamState :=
  if p.settable then
    if p.validator v then
      .ok { cache := { value := some v, raw_value := some (toRaw p v), timestamp := some now },
            get_count := s.get_count, set_count := s.set_count + 1 }
    else
      .error (.validationError ("Value " ++ toString v ++ " is invalid for parameter " ++ p.name))
  else
    .error (.missingCapability (noSetterMsg p.name))

/-- Modelled from the spec: validity of the stored value (section 4.1):
the timestamp is set, and either `max_val_age` is unset or the elapsed time
since the timestamp does not exceed it. -/
def Cache.isValid (p : Parameter) (c : Cache) (now : Nat) : Bool :=
  match c.timestamp with
  | none => false
  | some ts =>
    match p.max_val_age with
    | none => true
    | some a => now - ts ≤ a

/-- Modelled from the spec: `cache.get(get_if_invalid)` (section 4.1).  If a
stored value exists and is valid, it is returned with no side effect.  If
invalid or absent: with `get_if_invalid = false` the stored cooked value is
returned as-is (the `none` marker when never set), no I/O; with
`get_if_invalid = true`, when the parameter has a getter it is invoked
(refreshing the cache) and the freshly cached value is returned, while when
it has no getter an invalid-state error is raised: naming the parameter when
the timestamp was never set, or indicating that `max_val_age` is not
supported when the staleness bound is configured without a getter (the
escape-hatch case). -/
def Cache.get (p : Parameter) (s : ParamState) (now : Nat) (rawIn : Rat)
    (get_if_invalid : Bool) : Except Err (Option Rat × ParamState) :=
  if Cache.isValid p s.cache now then
    .ok (s.cache.value, s)
  else if get_if_invalid then
    if p.gettable then
      match Parameter.get p s now rawIn with
      | .ok (v, s') => .ok (some v, s')
      | .error e => .error e
    else
      match s.cache.timestamp with
      | none => .error (.invalidState (unknownValueMsg p.name))
      | some _ =>
        match p.max_val_age with
        | some _ => .error (.invalidState maxValAgeMsg)
        | none => .error (.invalidState "Should not be possible to get here")
  else
    .ok (s.cache.value, s)

/-- Modelled from the spec: `cache.get()` with `get_if_invalid` omitted: the
default is `true`. -/
def Cache.getDefault (p : Parameter) (s : ParamState) (now : Nat) (rawIn : Rat) :
    Except Err (Option Rat × ParamState) :=
  Cache.get p s now rawIn true

/-- Modelled from the spec: the direct cache mutation entry point
`cache._update_with(value, raw_value, timestamp)`: sets cooked value, raw
value and timestamp atomically as one operation, bypassing hardware I/O;
counters are unaffected. -/
def Cache.update_with (s : ParamState) (v r : Rat) (ts : Nat) : ParamState :=
  { s with cache := { value := some v, raw_value := some r, timestamp := some ts } }

/-- Modelled from the spec: the direct cache mutation entry point
`cache._set_from_raw_value(r)`: sets only the raw value and recomputes the
cooked value through the inverse transform, with the timestamp set to the
call's current time; counters are unaffected. -/
def Cache.set_from_raw_value (p : Parameter) (s : ParamState) (r : Rat) (now : Nat) :
    ParamState :=
  { s with cache := { value := some (fromRaw p r), raw_value := some r, timestamp := some now } }

/-- Modelled from the spec: the direct cache injection `cache.set(v)` used by
the `initial_cache_value` construction path: stores the cooked value and the
raw value computed through the transform, with the timestamp set to the
call's current time; no I/O, counters unaffected. -/
def Cache.inject (p : Parameter) (s : ParamState) (v : Rat) (now : Nat) : ParamState :=
  { s with cache := { value := some v, raw_value := some (toRaw p v), timestamp := some now } }

/-- Modelled from the spec: `Parameter` construction (sections 4.2 and 7).
`checkGettable` is true when the getter capability is known at construction
time (the concrete `Parameter` class) and false for bare subclasses that may
add a getter post-construction (the escape hatch).  Rejects supplying both
an initial cooked value and an initial cache value (usage error); rejects
`max_val_age` without a getter when the capability is checkable (usage
error).  With only `initial_value = some v` one `set` is performed at
construction; with only `initial_cache_value = some v` a direct cache
injection is performed with no set call. -/
def mkParameter (name : String) (gettable settable : Bool)
    (max_val_age : Option Nat) (scale offset : Rat) (validator : Rat → Bool)
    (checkGettable : Bool) (initial_value initial_cache_value : Option Rat)
    (now : Nat) : Except Err (Parameter × ParamState) :=
  if initial_value.isSome ∧ initial_cache_value.isSome then
    .error (.usageError bothInitialMsg)
  else if checkGettable ∧ max_val_age.isSome ∧ ¬gettable then
    .error (.usageError maxValAgeNoGetMsg)
  else
    let p : Parameter :=
      { name := name, gettable := gettable, settable := settable,
        max_val_age := max_val_age, scale := scale, offset := offset,
        validator := validator }
    match initial_value with
    | some v =>
      match Parameter.set p initState now v with
      | .ok s => .ok (p, s)
      | .error e => .error e
    | none =>
      match initial_cache_value with
      | some v => .ok (p, Cache.inject p initState v now)
      | none => .ok (p, initState)

/-! Theorems settling the claims. -/

/-- Helper: the `get_if_invalid = false` path of `Cache.get` always returns
the stored cooked value with the state unchanged, whatever the staleness
state. -/
theorem Cache.get_false_eq (p : Parameter) (s : ParamState) (now : Nat)
    (rawIn : Rat) :
    Cache.get p s now rawIn false = .ok (s.cache.value, s) := by
  unfold Cache.get
  split <;> simp

/-- C1: for every parameter configured with a getter and `max_val_age = A`
that holds a recorded value whose timestamp satisfies `now - timestamp > A`,
a call to `cache.get()` triggers exactly one invocation of the getter (the
get call counter increases by exactly one) and afterwards `cache.timestamp`
is refreshed to an instant at or after the moment of the call. -/
theorem stale_cache_get_invokes_getter_once (p : Parameter) (s : ParamState)
    (now : Nat) (rawIn : Rat) (a ts : Nat)
    (hg : p.gettable = true) (ha : p.max_val_age = some a)
    (hts : s.cache.timestamp = some ts) (hstale : a < now - ts) :
    ∃ v s', Cache.getDefault p s now rawIn = .ok (some v, s') ∧
      s'.get_count = s.get_count + 1 ∧
      ∃ t, s'.cache.timestamp = some t ∧ now ≤ t := by
  have hvalid : Cache.isValid p s.cache now = false := by
    simp [Cache.isValid, hts, ha]
    omega
  refine ⟨fromRaw p rawIn,
    { cache := { value := some (fromRaw p rawIn), raw_value := some rawIn,
                 timestamp := some now },
      get_count := s.get_count + 1, set_count := s.set_count },
    ?_, rfl, now, rfl, Nat.le_refl _⟩
  simp [Cache.getDefault, Cache.get, hvalid, hg, Parameter.get]

/-- Witness for C1: concrete gettable parameter with `max_val_age = 1` and a
value recorded at instant 3, queried at instant 20. -/
theorem stale_cache_get_invokes_getter_once_witness :
    ({ name := "test_param", gettable := true, settable := true,
       max_val_age := some 1, scale := 1, offset := 0,
       validator := fun _ => true } : Parameter).gettable = true ∧
    ({ name := "test_param", gettable := true, settable := true,
       max_val_age := some 1, scale := 1, offset := 0,
       validator := fun _ => true } : Parameter).max_val_age = some 1 ∧
    ({ cache := { value := some 1, raw_value := some 1, timestamp := some 3 },
       get_count := 0, set_count := 0 } : ParamState).cache.timestamp = some 3 ∧
    1 < 20 - 3 ∧
    (∃ v s', Cache.getDefault
      { name := "test_param", gettable := true, settable := true,
        max_val_age := some 1, scale := 1, offset := 0,
        validator := fun _ => true }
      { cache := { value := some 1, raw_value := some 1, timestamp := some 3 },
        get_count := 0, set_count := 0 } 20 1 = .ok (some v, s') ∧
      s'.get_count = 0 + 1 ∧
      ∃ t, s'.cache.timestamp = some t ∧ 20 ≤ t) :=
  ⟨rfl, rfl, rfl, by decide,
    stale_cache_get_invokes_getter_once _ _ 20 1 1 3 rfl rfl rfl (by decide)⟩

/-- C2: for every parameter with no `max_val_age` configured, once the cache
holds a recorded value (timestamp is set), every subsequent `cache.get()`
call returns that stored value without invoking the getter: the state (hence
the getter call counter and `cache.timestamp`) is unchanged. -/
theorem known_value_no_max_val_age_uses_cache (p : Parameter) (s : ParamState)
    (now : Nat) (rawIn : Rat) (v : Rat) (ts : Nat)
    (ha : p.max_val_age = none) (hts : s.cache.timestamp = some ts)
    (hv : s.cache.value = some v) :
    Cache.getDefault p s now rawIn = .ok (some v, s) := by
  simp [Cache.getDefault, Cache.get, Cache.isValid, hts, ha, hv]

/-- Witness for C2: concrete parameter with no `max_val_age` and a value 1
recorded at instant 5, queried at the much later instant 1000. -/
theorem known_value_no_max_val_age_uses_cache_witness :
    ({ name := "test_param", gettable := true, settable := true,
       max_val_age := none, scale := 1, offset := 0,
       validator := fun _ => true } : Parameter).max_val_age = none ∧
    ({ cache := { value := some 1, raw_value := some 1, timestamp := some 5 },
       get_count := 0, set_count := 0 } : ParamState).cache.timestamp = some 5 ∧
    ({ cache := { value := some 1, raw_value := some 1, timestamp := some 5 },
       get_count := 0, set_count := 0 } : ParamState).cache.value = some 1 ∧
    Cache.getDefault
      { name := "test_param", gettable := true, settable := true,
        max_val_age := none, scale := 1, offset := 0,
        validator := fun _ => true }
      { cache := { value := some 1, raw_value := some 1, timestamp := some 5 },
        get_count := 0, set_count := 0 } 1000 7
      = .ok (some 1,
          { cache := { value := some 1, raw_value := some 1, timestamp := some 5 },
            get_count := 0, set_count := 0 }) :=
  ⟨rfl, rfl, rfl,
    known_value_no_max_val_age_uses_cache _ _ 1000 7 1 5 rfl rfl rfl⟩

/-- C3: for every parameter and every cache state (fresh, stale past
`max_val_age`, or never set), `cache.get(get_if_invalid := false)` never
invokes the getter and returns the stored cooked value as-is, returning the
`none` marker when no value was ever recorded: the result is always the
stored value paired with the unchanged state. -/
theorem get_if_invalid_false_never_invokes_getter (p : Parameter)
    (s : ParamState) (now : Nat) (rawIn : Rat) :
    Cache.get p s now rawIn false = .ok (s.cache.value, s) :=
  Cache.get_false_eq p s now rawIn

/-- C4: for every parameter carrying `max_val_age` but no getter (the
escape-hatch configuration reachable only because the construction-time
getter check was skipped), when the stored value is stale `cache.get` raises
an invalid-state error whose message indicates that `max_val_age` is not
supported, both when `get_if_invalid` is passed as true and when it is
omitted; but when `get_if_invalid` is explicitly false the stale stored
value is returned without raising. -/
theorem no_getter_max_val_age_lazy_error (p : Parameter) (s : ParamState)
    (now : Nat) (rawIn : Rat) (a ts : Nat) (v : Rat)
    (hg : p.gettable = false) (ha : p.max_val_age = some a)
    (hts : s.cache.timestamp = some ts) (hv : s.cache.value = some v)
    (hstale : a < now - ts) :
    Cache.get p s now rawIn true = .error (.invalidState maxValAgeMsg) ∧
    Cache.getDefault p s now rawIn = .error (.invalidState maxValAgeMsg) ∧
    "max_val_age is not supported".data <:+: maxValAgeMsg.data ∧
    Cache.get p s now rawIn false = .ok (some v, s) := by
  have hvalid : Cache.isValid p s.cache now = false := by
    simp [Cache.isValid, hts, ha]
    omega
  refine ⟨?_, ?_, ⟨[], ?_⟩, ?_⟩
  · simp [Cache.get, hvalid, hg, hts, ha]
  · simp [Cache.getDefault, Cache.get, hvalid, hg, hts, ha]
  · exact ⟨" for a parameter without get command".data, rfl⟩
  · simp [Cache.get, hvalid, hv]

/-- Witness for C4: concrete setter-only parameter with `max_val_age = 1`
(as built by the unchecked subclass in the tests) whose value was recorded
at instant 3, queried at instant 20. -/
theorem no_getter_max_val_age_lazy_error_witness :
    ({ name := "test_param", gettable := false, settable := true,
       max_val_age := some 1, scale := 1, offset := 0,
       validator := fun _ => true } : Parameter).gettable = false ∧
    ({ name := "test_param", gettable := false, settable := true,
       max_val_age := some 1, scale := 1, offset := 0,
       validator := fun _ => true } : Parameter).max_val_age = some 1 ∧
    ({ cache := { value := some 1, raw_value := some 1, timestamp := some 3 },
       get_count := 0, set_count := 0 } : ParamState).cache.timestamp = some 3 ∧
    ({ cache := { value := some 1, raw_value := some 1, timestamp := some 3 },
       get_count := 0, set_count := 0 } : ParamState).cache.value = some 1 ∧
    1 < 20 - 3 ∧
    (Cache.get
      { name := "test_param", gettable := false, settable := true,
        max_val_age := some 1, scale := 1, offset := 0,
        validator := fun _ => true }
      { cache := { value := some 1, raw_value := some 1, timestamp := some 3 },
        get_count := 0, set_count := 0 } 20 1 true
        = .error (.invalidState maxValAgeMsg) ∧
     Cache.getDefault
      { name := "test_param", gettable := false, settable := true,
        max_val_age := some 1, scale := 1, offset := 0,
        validator := fun _ => true }
      { cache := { value := some 1, raw_value := some 1, timestamp := some 3 },
        get_count := 0, set_count := 0 } 20 1
        = .error (.invalidState maxValAgeMsg) ∧
     "max_val_age is not supported".data <:+: maxValAgeMsg.data ∧
     Cache.get
      { name := "test_param", gettable := false, settable := true,
        max_val_age := some 1, scale := 1, offset := 0,
        validator := fun _ => true }
      { cache := { value := some 1, raw_value := some 1, timestamp := some 3 },
        get_count := 0, set_count := 0 } 20 1 false
        = .ok (some 1,
          { cache := { value := some 1, raw_value := some 1, timestamp := some 3 },
            get_count := 0, set_count := 0 })) :=
  ⟨rfl, rfl, rfl, rfl, by decide,
    no_getter_max_val_age_lazy_error _ _ 20 1 1 3 1 rfl rfl rfl rfl (by decide)⟩

/-- C5: for every parameter with no getter configured: `Parameter.get`
raises a missing-capability error; `cache.get()` raises an invalid-state
error whose message names the parameter when no value has ever been
recorded; and after a successful `set(V)`, `cache.get()` returns `V`
without error. -/
theorem no_getter_get_errors_set_recovers (p : Parameter) (s : ParamState)
    (now : Nat) (rawIn : Rat) (v : Rat)
    (hg : p.gettable = false) (hset : p.settable = true)
    (hval : p.validator v = true) :
    Parameter.get p s now rawIn
      = .error (.missingCapability (noGetterMsg p.name)) ∧
    (s.cache.timestamp = none →
      Cache.getDefault p s now rawIn
        = .error (.invalidState (unknownValueMsg p.name)) ∧
      p.name.data <:+: (unknownValueMsg p.name).data) ∧
    (∃ s', Parameter.set p s now v = .ok s' ∧
      Cache.getDefault p s' now rawIn = .ok (some v, s')) := by
  refine ⟨by simp [Parameter.get, hg], fun hts => ⟨?_, ?_⟩, ?_⟩
  · have hvalid : Cache.isValid p s.cache now = false := by
      simp [Cache.isValid, hts]
    simp [Cache.getDefault, Cache.get, hvalid, hg, hts]
  · refine ⟨"Value of parameter ".data,
      " is unknown and the Parameter does not have a get command".data, ?_⟩
    simp [unknownValueMsg, String.data_append]
  · refine ⟨{ cache := { value := some v,
                         raw_value := some (toRaw p v),
                         timestamp := some now },
              get_count := s.get_count,
              set_count := s.set_count + 1 }, ?_, ?_⟩
    · simp [Parameter.set, hset, hval]
    · have hvalid : Cache.isValid p
          { value := some v, raw_value := some (toRaw p v),
            timestamp := some now } now = true := by
        unfold Cache.isValid
        cases p.max_val_age <;> simp
      simp [Cache.getDefault, Cache.get, hvalid]

/-- Witness for C5: concrete setter-only parameter (no getter, no
`max_val_age`) with a never-recorded cache, then set to 1 at instant 4. -/
theorem no_getter_get_errors_set_recovers_witness :
    ({ name := "test_param", gettable := false, settable := true,
       max_val_age := none, scale := 1, offset := 0,
       validator := fun _ => true } : Parameter).gettable = false ∧
    ({ name := "test_param", gettable := false, settable := true,
       max_val_age := none, scale := 1, offset := 0,
       validator := fun _ => true } : Parameter).settable = true ∧
    ({ name := "test_param", gettable := false, settable := true,
       max_val_age := none, scale := 1, offset := 0,
       validator := fun _ => true } : Parameter).validator 1 = true ∧
    (Parameter.get
      { name := "test_param", gettable := false, settable := true,
        max_val_age := none, scale := 1, offset := 0,
        validator := fun _ => true } initState 4 0
      = .error (.missingCapability (noGetterMsg "test_param")) ∧
     (initState.cache.timestamp = none →
      Cache.getDefault
        { name := "test_param", gettable := false, settable := true,
          max_val_age := none, scale := 1, offset := 0,
          validator := fun _ => true } initState 4 0
        = .error (.invalidState (unknownValueMsg "test_param")) ∧
      "test_param".data <:+: (unknownValueMsg "test_param").data) ∧
     (∃ s', Parameter.set
        { name := "test_param", gettable := false, settable := true,
          max_val_age := none, scale := 1, offset := 0,
          validator := fun _ => true } initState 4 1 = .ok s' ∧
      Cache.getDefault
        { name := "test_param", gettable := false, settable := true,
          max_val_age := none, scale := 1, offset := 0,
          validator := fun _ => true } s' 4 0 = .ok (some 1, s'))) :=
  ⟨rfl, rfl, rfl,
    no_getter_get_errors_set_recovers _ initState 4 0 1 rfl rfl rfl⟩

/-- C6: every construction attempt that supplies both an initial cooked
value and an initial cache value fails with a usage error whose message
mentions both options, and no `Parameter` is produced (the result is an
error, not an `(Parameter, state)` pair). -/
theorem both_initial_values_usage_error (name : String)
    (gettable settable : Bool) (mva : Option Nat) (scale offset : Rat)
    (validator : Rat → Bool) (checkG : Bool) (v1 v2 : Rat) (now : Nat) :
    mkParameter name gettable settable mva scale offset validator checkG
      (some v1) (some v2) now = .error (.usageError bothInitialMsg) ∧
    "initial_value".data <:+: bothInitialMsg.data ∧
    "initial_cache_value".data <:+: bothInitialMsg.data := by
  refine ⟨by simp [mkParameter], by decide, by decide⟩

/-- C7: every construction attempt whose getter capability is known absent
at construction time (`checkGettable = true`, `gettable = false`) while
`max_val_age` is configured fails with a usage error; and the check is
performed only when the capability is checkable at construction: the same
configuration with `checkGettable = false` (and no initial values)
constructs successfully. -/
theorem max_val_age_without_getter_rejected (name : String) (settable : Bool)
    (a : Nat) (scale offset : Rat) (validator : Rat → Bool)
    (iv icv : Option Rat) (now : Nat) :
    (∃ msg, mkParameter name false settable (some a) scale offset validator
      true iv icv now = .error (.usageError msg)) ∧
    (∃ ps, mkParameter name false settable (some a) scale offset validator
      false none none now = .ok ps) := by
  constructor
  · by_cases h : iv.isSome ∧ icv.isSome
    · exact ⟨bothInitialMsg, by simp [mkParameter, h]⟩
    · exact ⟨maxValAgeNoGetMsg, by simp [mkParameter, h]⟩
  · exact ⟨({ name := name, gettable := false, settable := settable,
              max_val_age := some a, scale := scale, offset := offset,
              validator := validator }, initState), by simp [mkParameter]⟩

/-- C8: every settable parameter constructed with `initial_value = v` has
exactly one set call during construction and
`cache.get(get_if_invalid := false) = v` afterwards; every parameter
constructed with `initial_cache_value = v` has zero set calls and
`cache.get(get_if_invalid := false) = v` afterwards. -/
theorem initial_value_vs_initial_cache_value (name : String)
    (gettable settable2 : Bool) (mva : Option Nat) (scale offset : Rat)
    (validator : Rat → Bool) (checkG : Bool) (v : Rat) (now now2 : Nat)
    (rawIn : Rat)
    (hval : validator v = true)
    (hga : checkG = true → mva.isSome = true → gettable = true) :
    (∃ p s, mkParameter name gettable true mva scale offset validator checkG
        (some v) none now = .ok (p, s) ∧
      s.set_count = 1 ∧
      Cache.get p s now2 rawIn false = .ok (some v, s)) ∧
    (∃ p s, mkParameter name gettable settable2 mva scale offset validator
        checkG none (some v) now = .ok (p, s) ∧
      s.set_count = 0 ∧
      Cache.get p s now2 rawIn false = .ok (some v, s)) := by
  constructor
  · refine ⟨{ name := name, gettable := gettable, settable := true,
              max_val_age := mva, scale := scale, offset := offset,
              validator := validator },
            { cache := { value := some v,
                         raw_value := some (v * scale + offset),
                         timestamp := some now },
              get_count := 0, set_count := 1 }, ?_, rfl, ?_⟩
    · simp [mkParameter, Parameter.set, hval, initState, toRaw]
      exact hga
    · simp [Cache.get_false_eq]
  · refine ⟨{ name := name, gettable := gettable, settable := settable2,
              max_val_age := mva, scale := scale, offset := offset,
              validator := validator },
            { cache := { value := some v,
                         raw_value := some (v * scale + offset),
                         timestamp := some now },
              get_count := 0, set_count := 0 }, ?_, rfl, ?_⟩
    · simp [mkParameter, Cache.inject, initState, toRaw]
      exact hga
    · simp [Cache.get_false_eq]

/-- Witness for C8: concrete settable parameter, value 43 as in the test,
identity transform, no staleness bound, capability check enabled. -/
theorem initial_value_vs_initial_cache_value_witness :
    (fun _ : Rat => true) 43 = true ∧
    ((true = true) → ((none : Option Nat).isSome = true) → (true = true)) ∧
    ((∃ p s, mkParameter "param" true true none 1 0 (fun _ => true) true
        (some 43) none 9 = .ok (p, s) ∧
      s.set_count = 1 ∧
      Cache.get p s 9 0 false = .ok (some 43, s)) ∧
     (∃ p s, mkParameter "param" true true none 1 0 (fun _ => true) true
        none (some 43) 9 = .ok (p, s) ∧
      s.set_count = 0 ∧
      Cache.get p s 9 0 false = .ok (some 43, s))) :=
  ⟨rfl, fun h _ => h,
    initial_value_vs_initial_cache_value "param" true true none 1 0
      (fun _ => true) true 43 9 9 0 rfl (fun h _ => h)⟩

/-- C9: for every parameter with `scale = S` (and the default `offset = 0`)
and every raw value `r`, directly injecting `r` via the cache's raw-value
entry point makes `cache.get(get_if_invalid := false) = r / S` and
`cache.raw_value = r`, with `cache.timestamp` set to the instant of the
injection call. -/
theorem set_raw_value_transform_roundtrip (p : Parameter) (s : ParamState)
    (r : Rat) (now now2 : Nat) (rawIn : Rat)
    (hoff : p.offset = 0) :
    Cache.get p (Cache.set_from_raw_value p s r now) now2 rawIn false
      = .ok (some (r / p.scale), Cache.set_from_raw_value p s r now) ∧
    (Cache.set_from_raw_value p s r now).cache.raw_value = some r ∧
    (Cache.set_from_raw_value p s r now).cache.timestamp = some now := by
  refine ⟨?_, rfl, rfl⟩
  rw [Cache.get_false_eq]
  simp [Cache.set_from_raw_value, fromRaw, hoff]

/-- Witness for C9: concrete parameter with `scale = 10`, raw value 10
injected at instant 6, as in the test. -/
theorem set_raw_value_transform_roundtrip_witness :
    ({ name := "test_param", gettable := true, settable := true,
       max_val_age := none, scale := 10, offset := 0,
       validator := fun _ => true } : Parameter).offset = 0 ∧
    (Cache.get
      { name := "test_param", gettable := true, settable := true,
        max_val_age := none, scale := 10, offset := 0,
        validator := fun _ => true }
      (Cache.set_from_raw_value
        { name := "test_param", gettable := true, settable := true,
          max_val_age := none, scale := 10, offset := 0,
          validator := fun _ => true } initState 10 6) 6 0 false
      = .ok (some ((10 : Rat) / 10),
          Cache.set_from_raw_value
            { name := "test_param", gettable := true, settable := true,
              max_val_age := none, scale := 10, offset := 0,
              validator := fun _ => true } initState 10 6) ∧
     (Cache.set_from_raw_value
        { name := "test_param", gettable := true, settable := true,
          max_val_age := none, scale := 10, offset := 0,
          validator := fun _ => true } initState 10 6).cache.raw_value
        = some 10 ∧
     (Cache.set_from_raw_value
        { name := "test_param", gettable := true, settable := true,
          max_val_age := none, scale := 10, offset := 0,
          validator := fun _ => true } initState 10 6).cache.timestamp
        = some 6) :=
  ⟨rfl, set_raw_value_transform_roundtrip _ initState 10 6 6 0 rfl⟩

/-- C10: validity is a function of the timestamp alone, not of value
presence: for a gettable parameter (no `max_val_age`) whose cache holds
cooked and raw values but whose timestamp is unset, a default `cache.get()`
invokes the getter exactly once and sets the timestamp to an instant at or
after the call; a further `cache.get()` then returns the same value with no
additional getter invocation and the state unchanged. -/
theorem unset_timestamp_triggers_get_then_cached (p : Parameter)
    (s : ParamState) (now now2 : Nat) (rawIn rawIn2 : Rat) (v r : Rat)
    (hg : p.gettable = true) (ha : p.max_val_age = none)
    (_hv : s.cache.value = some v) (_hr : s.cache.raw_value = some r)
    (hts : s.cache.timestamp = none) :
    ∃ v1 s1, Cache.getDefault p s now rawIn = .ok (some v1, s1) ∧
      s1.get_count = s.get_count + 1 ∧
      (∃ t, s1.cache.timestamp = some t ∧ now ≤ t) ∧
      Cache.getDefault p s1 now2 rawIn2 = .ok (some v1, s1) := by
  have hvalid : Cache.isValid p s.cache now = false := by
    simp [Cache.isValid, hts]
  refine ⟨fromRaw p rawIn,
    { cache := { value := some (fromRaw p rawIn),
                 raw_value := some rawIn,
                 timestamp := some now },
      get_count := s.get_count + 1, set_count := s.set_count },
    ?_, rfl, ⟨now, rfl, Nat.le_refl _⟩, ?_⟩
  · simp [Cache.getDefault, Cache.get, hvalid, hg, Parameter.get]
  · simp [Cache.getDefault, Cache.get, Cache.isValid, ha]

/-- Witness for C10: concrete gettable parameter whose cache was seeded with
value 1 and raw value 1 but no timestamp, queried at instants 8 and 15. -/
theorem unset_timestamp_triggers_get_then_cached_witness :
    ({ name := "test_param", gettable := true, settable := true,
       max_val_age := none, scale := 1, offset := 0,
       validator := fun _ => true } : Parameter).gettable = true ∧
    ({ name := "test_param", gettable := true, settable := true,
       max_val_age := none, scale := 1, offset := 0,
       validator := fun _ => true } : Parameter).max_val_age = none ∧
    ({ cache := { value := some 1, raw_value := some 1, timestamp := none },
       get_count := 0, set_count := 0 } : ParamState).cache.value = some 1 ∧
    ({ cache := { value := some 1, raw_value := some 1, timestamp := none },
       get_count := 0, set_count := 0 } : ParamState).cache.raw_value = some 1 ∧
    ({ cache := { value := some 1, raw_value := some 1, timestamp := none },
       get_count := 0, set_count := 0 } : ParamState).cache.timestamp = none ∧
    (∃ v1 s1, Cache.getDefault
      { name := "test_param", gettable := true, settable := true,
        max_val_age := none, scale := 1, offset := 0,
        validator := fun _ => true }
      { cache := { value := some 1, raw_value := some 1, timestamp := none },
        get_count := 0, set_count := 0 } 8 1 = .ok (some v1, s1) ∧
      s1.get_count = 0 + 1 ∧
      (∃ t, s1.cache.timestamp = some t ∧ 8 ≤ t) ∧
      Cache.getDefault
        { name := "test_param", gettable := true, settable := true,
          max_val_age := none, scale := 1, offset := 0,
          validator := fun _ => true } s1 15 1 = .ok (some v1, s1)) :=
  ⟨rfl, rfl, rfl, rfl, rfl,
    unset_timestamp_triggers_get_then_cached _ _ 8 15 1 1 1 1
      rfl rfl rfl rfl rfl⟩

end QCodes
